import Mathlib

/-!
# vglyph `accessibility/objc_helpers.h`: the Objective-C runtime bridge

A shallow embedding of the nine `static inline` helpers of
`src/accessibility/objc_helpers.h` and of the five function-pointer aliases
they cast `objc_msgSend` to.

* Handles (`V_ID`, `V_SEL`, both `void *`) are pointer values, `0` being `NULL`.
* The Objective-C runtime (`objc_getClass`, `sel_registerName`, `objc_msgSend`)
  is external to the header; it is a parameter `Runtime σ` acting on an
  arbitrary runtime state `σ`, so every theorem holds for every runtime.
* A call through a cast `((ALIAS)objc_msgSend)(a₁, …, aₙ)` follows the C rule:
  the leading arguments fill the alias's fixed parameters, the remaining ones
  travel through its `...`, and the result is read back at the alias's return
  type.  That triple is all the entry point receives when the result comes
  back in registers.
* The header has no architecture guard.  Where the platform ABI returns an
  `NSRect` in memory (x86-64), a call through an `NSRect`-returning cast passes
  the address of the caller's return slot ahead of the arguments; `Arch` and
  `ReturnSlot` carry that into the one helper it concerns, `v_msgSend_nsrect`.
* `Runtime.traced` instruments a runtime with a log of the calls made into it,
  which is how "performs exactly one dispatch with these arguments" is stated.
-/

namespace ObjcHelpers

/-! ## Data model -/

/-- The header's `typedef void *V_ID;`: a pointer value. -/
abbrev V_ID := Nat

/-- The header's `typedef void *V_SEL;`: a pointer value. -/
abbrev V_SEL := Nat

/-- The null pointer, the runtime's "no such class" sentinel. -/
def NULL : Nat := 0

/-- A `const char *` argument: the pointer value together with the
NUL-terminated string it designates when the call is made. -/
structure CString where
  ptr : Nat
  chars : String
deriving DecidableEq, Repr

/-- Modelled from the spec: `CGFloat`, the floating-point field type of the
platform rectangle, which the header takes from `<Foundation/Foundation.h>`.
A field is represented by its IEEE-754 binary64 bit pattern; the helpers do no
arithmetic on it. -/
abbrev CGFloat := Nat

/-- Modelled from the spec: the origin of the platform rectangle (x, y),
declared in `<Foundation/Foundation.h>`. -/
structure NSPoint where
  x : CGFloat
  y : CGFloat
deriving DecidableEq, Repr

/-- Modelled from the spec: the size of the platform rectangle (width,
height), declared in `<Foundation/Foundation.h>`. -/
structure NSSize where
  width : CGFloat
  height : CGFloat
deriving DecidableEq, Repr

/-- Modelled from the spec: `NSRect`, the rectangle value with four
floating-point fields (origin x, y; size width, height), declared in
`<Foundation/Foundation.h>`. -/
structure NSRect where
  origin : NSPoint
  size : NSSize
deriving DecidableEq, Repr

/-- The C types that occur in the header's signatures and aliases. -/
inductive CType where
  | v_id
  | v_sel
  | cstr
  | nsrect
  | void
deriving DecidableEq, Repr

/-- The values of a C type. -/
@[reducible] def CType.denote : CType → Type
  | .v_id => V_ID
  | .v_sel => V_SEL
  | .cstr => CString
  | .nsrect => NSRect
  | .void => Unit

/-- An argument value at a call site, tagged with its C type. -/
inductive Arg where
  | id (h : V_ID)
  | sel (s : V_SEL)
  | cstr (c : CString)
  | nsrect (r : NSRect)
deriving DecidableEq, Repr

/-- The C type of an argument. -/
def Arg.type : Arg → CType
  | .id _ => .v_id
  | .sel _ => .v_sel
  | .cstr _ => .cstr
  | .nsrect _ => .nsrect

/-- A function-pointer type: return type, fixed parameter list, and whether
the parameter list ends in `...`. -/
structure FnType where
  ret : CType
  params : List CType
  variadic : Bool
deriving DecidableEq, Repr

/-! ## The five aliases (header lines 16-20) -/

/-- The alias `typedef V_ID (*FN_MSG_SEND)(V_ID, V_SEL, ...);` -/
@[reducible] def FN_MSG_SEND : FnType := ⟨.v_id, [.v_id, .v_sel], true⟩

/-- The alias `typedef V_ID (*FN_MSG_SEND_STR)(V_ID, V_SEL, const char *);` -/
@[reducible] def FN_MSG_SEND_STR : FnType := ⟨.v_id, [.v_id, .v_sel, .cstr], false⟩

/-- The alias `typedef NSRect (*FN_MSG_SEND_NSRECT)(V_ID, V_SEL, ...);` -/
@[reducible] def FN_MSG_SEND_NSRECT : FnType := ⟨.nsrect, [.v_id, .v_sel], true⟩

/-- The alias `typedef void (*FN_MSG_SEND_SETFRAME)(V_ID, V_SEL, NSRect, ...);` -/
@[reducible] def FN_MSG_SEND_SETFRAME : FnType := ⟨.void, [.v_id, .v_sel, .nsrect], true⟩

/-- The alias `typedef void (*FN_MSG_SEND_VOID_ID)(V_ID, V_SEL, V_ID);` -/
@[reducible] def FN_MSG_SEND_VOID_ID : FnType := ⟨.void, [.v_id, .v_sel, .v_id], false⟩

/-! ## The external runtime -/

/-- The three runtime entry points the header calls, over a runtime state `σ`.
`objc_msgSend` receives what a call through a cast function pointer hands it:
the type the result is read back at, the arguments in the fixed parameter
positions, and the arguments passed through `...`. -/
structure Runtime (σ : Type) where
  objc_getClass : CString → σ → V_ID × σ
  sel_registerName : CString → σ → V_SEL × σ
  objc_msgSend : (ret : CType) → (fixed : List Arg) → (variadic : List Arg) → σ → ret.denote × σ

/-- The arguments of a call through alias `t` that fill its fixed parameters. -/
def fixedArgs (t : FnType) (args : List Arg) : List Arg :=
  args.take t.params.length

/-- The arguments of a call through alias `t` that travel through its `...`. -/
def variadicArgs (t : FnType) (args : List Arg) : List Arg :=
  args.drop t.params.length

/-- The call `((t)objc_msgSend)(args)`: the dispatch symbol reinterpreted at
alias `t` and applied to `args`. -/
def callAs {σ : Type} (rt : Runtime σ) (t : FnType) (args : List Arg) (s : σ) :
    t.ret.denote × σ :=
  rt.objc_msgSend t.ret (fixedArgs t args) (variadicArgs t args) s

/-- The C typing rule for `((t)objc_msgSend)(args)`: the leading arguments have
the fixed parameter types, and further arguments are allowed only through
`...`. -/
def WellTypedCall (t : FnType) (args : List Arg) : Prop :=
  (fixedArgs t args).map Arg.type = t.params ∧
    (t.variadic = true ∨ variadicArgs t args = [])

instance (t : FnType) (args : List Arg) : Decidable (WellTypedCall t args) := by
  unfold WellTypedCall
  infer_instance

/-! ## Return of a rectangle under the platform ABI -/

/-- The architectures the header is compiled for; it has no architecture
guard, and its only entry point for dispatch is `objc_msgSend`. -/
inductive Arch where
  | arm64
  | x86_64
deriving DecidableEq, Repr

/-- Whether the ABI returns a value of the given C type in memory, through a
hidden pointer the caller passes ahead of the arguments.  `NSRect` is four
doubles, 32 bytes: x86-64 returns an aggregate larger than 16 bytes in memory,
arm64 returns an aggregate of up to four doubles in registers.  Pointers come
back in a register on both. -/
def Arch.returnsInMemory : Arch → CType → Bool
  | .x86_64, .nsrect => true
  | _, _ => false

/-- The caller's return slot for a rectangle returned in memory: its address
and the contents it holds before the call. -/
structure ReturnSlot where
  addr : V_ID
  contents : NSRect
deriving DecidableEq, Repr

/-- The call `((FN_MSG_SEND_NSRECT)objc_msgSend)(obj, sel)` as compiled for
`arch`.  Where the rectangle comes back in registers this is `callAs`.  Where
it comes back in memory the caller passes the address of its return slot
ahead of `obj` and `sel` and reads the slot afterwards; `objc_msgSend`, not
being the struct-return entry point `objc_msgSend_stret`, takes the first two
argument words as receiver and selector, so it receives the slot address as
receiver, `obj` as selector and `sel` as a further argument, and it does not
fill the slot. -/
def callAsNSRect {σ : Type} (arch : Arch) (rt : Runtime σ) (obj : V_ID) (sel : V_SEL)
    (slot : ReturnSlot) (s : σ) : NSRect × σ :=
  if arch.returnsInMemory FN_MSG_SEND_NSRECT.ret then
    (slot.contents, (rt.objc_msgSend .void [.id slot.addr, .sel obj, .sel sel] [] s).2)
  else
    callAs rt FN_MSG_SEND_NSRECT [.id obj, .sel sel] s

/-! ## The nine helpers (header lines 23-58) -/

/-- Header lines 23-25: `return (__bridge void *)objc_getClass(name);` -/
def v_objc_getClass {σ : Type} (rt : Runtime σ) (name : CString) (s : σ) : V_ID × σ :=
  rt.objc_getClass name s

/-- Header lines 27-29: `return sel_registerName(name);` -/
def v_sel_registerName {σ : Type} (rt : Runtime σ) (name : CString) (s : σ) : V_SEL × σ :=
  rt.sel_registerName name s

/-- Header lines 31-34: `return ((FN_MSG_SEND)objc_msgSend)(obj, sel, arg1);` -/
def v_msgSend {σ : Type} (rt : Runtime σ) (obj : V_ID) (sel : V_SEL) (arg1 : V_ID) (s : σ) :
    V_ID × σ :=
  callAs rt FN_MSG_SEND [.id obj, .sel sel, .id arg1] s

/-- Header lines 36-38: `return ((FN_MSG_SEND)objc_msgSend)(obj, sel);` -/
def v_msgSend_0 {σ : Type} (rt : Runtime σ) (obj : V_ID) (sel : V_SEL) (s : σ) : V_ID × σ :=
  callAs rt FN_MSG_SEND [.id obj, .sel sel] s

/-- Header lines 40-42: `return ((FN_MSG_SEND_STR)objc_msgSend)(obj, sel, str);` -/
def v_msgSend_str {σ : Type} (rt : Runtime σ) (obj : V_ID) (sel : V_SEL) (str : CString)
    (s : σ) : V_ID × σ :=
  callAs rt FN_MSG_SEND_STR [.id obj, .sel sel, .cstr str] s

/-- Header lines 44-46: `return ((FN_MSG_SEND_NSRECT)objc_msgSend)(obj, sel);`
compiled for `arch`, `slot` being the return slot the compiler gives the call. -/
def v_msgSend_nsrect {σ : Type} (arch : Arch) (rt : Runtime σ) (obj : V_ID) (sel : V_SEL)
    (slot : ReturnSlot) (s : σ) : NSRect × σ :=
  callAsNSRect arch rt obj sel slot s

/-- Header lines 48-50: `((FN_MSG_SEND_SETFRAME)objc_msgSend)(obj, sel, rect);` -/
def v_msgSend_setFrame {σ : Type} (rt : Runtime σ) (obj : V_ID) (sel : V_SEL) (rect : NSRect)
    (s : σ) : Unit × σ :=
  callAs rt FN_MSG_SEND_SETFRAME [.id obj, .sel sel, .nsrect rect] s

/-- Header lines 52-54: `((FN_MSG_SEND_VOID_ID)objc_msgSend)(obj, sel, arg1);` -/
def v_msgSend_void_id {σ : Type} (rt : Runtime σ) (obj : V_ID) (sel : V_SEL) (arg1 : V_ID)
    (s : σ) : Unit × σ :=
  callAs rt FN_MSG_SEND_VOID_ID [.id obj, .sel sel, .id arg1] s

/-- Header lines 56-58: `return ((FN_MSG_SEND)objc_msgSend)(obj, sel, arr);` -/
def v_msgSend_array {σ : Type} (rt : Runtime σ) (obj : V_ID) (sel : V_SEL) (arr : V_ID)
    (s : σ) : V_ID × σ :=
  callAs rt FN_MSG_SEND [.id obj, .sel sel, .id arr] s

/-! ## Instrumented runtime -/

/-- One call into the runtime, as the runtime receives it. -/
inductive Event where
  | getClass (name : CString)
  | registerName (name : CString)
  | msgSend (ret : CType) (fixed : List Arg) (variadic : List Arg)
deriving DecidableEq, Repr

/-- The runtime `rt` with a log: every entry point behaves as in `rt` and
appends the call it received to the log. -/
def Runtime.traced {σ : Type} (rt : Runtime σ) : Runtime (σ × List Event) where
  objc_getClass name st :=
    ((rt.objc_getClass name st.1).1,
      (rt.objc_getClass name st.1).2, st.2 ++ [Event.getClass name])
  sel_registerName name st :=
    ((rt.sel_registerName name st.1).1,
      (rt.sel_registerName name st.1).2, st.2 ++ [Event.registerName name])
  objc_msgSend ret fixed variadic st :=
    ((rt.objc_msgSend ret fixed variadic st.1).1,
      (rt.objc_msgSend ret fixed variadic st.1).2, st.2 ++ [Event.msgSend ret fixed variadic])

/-! ## Reference call

What the platform's own language bindings emit for a message expression with a
pointer-sized result: a call of `objc_msgSend` at the method's own,
non-variadic type. -/

/-- Reference for the native zero-argument message `[obj sel]` with an object
result: `((id (*)(id, SEL))objc_msgSend)(obj, sel)`. -/
def native_msgSend_0 {σ : Type} (rt : Runtime σ) (obj : V_ID) (sel : V_SEL) (s : σ) :
    V_ID × σ :=
  rt.objc_msgSend .v_id [.id obj, .sel sel] [] s

/-! ## Static table of the helpers -/

/-- The nine `static inline` functions of the header. -/
inductive Helper where
  | v_objc_getClass
  | v_sel_registerName
  | v_msgSend
  | v_msgSend_0
  | v_msgSend_str
  | v_msgSend_nsrect
  | v_msgSend_setFrame
  | v_msgSend_void_id
  | v_msgSend_array
deriving DecidableEq, Repr

/-- All nine helpers, in header order. -/
def Helper.all : List Helper :=
  [.v_objc_getClass, .v_sel_registerName, .v_msgSend, .v_msgSend_0, .v_msgSend_str,
    .v_msgSend_nsrect, .v_msgSend_setFrame, .v_msgSend_void_id, .v_msgSend_array]

/-- The seven helpers that call `objc_msgSend`. -/
def Helper.dispatchers : List Helper :=
  [.v_msgSend, .v_msgSend_0, .v_msgSend_str, .v_msgSend_nsrect, .v_msgSend_setFrame,
    .v_msgSend_void_id, .v_msgSend_array]

/-- Parameter types of each helper, from its C signature.  Every dispatching
helper passes exactly its parameters, in order, at its call site. -/
def Helper.params : Helper → List CType
  | .v_objc_getClass => [.cstr]
  | .v_sel_registerName => [.cstr]
  | .v_msgSend => [.v_id, .v_sel, .v_id]
  | .v_msgSend_0 => [.v_id, .v_sel]
  | .v_msgSend_str => [.v_id, .v_sel, .cstr]
  | .v_msgSend_nsrect => [.v_id, .v_sel]
  | .v_msgSend_setFrame => [.v_id, .v_sel, .nsrect]
  | .v_msgSend_void_id => [.v_id, .v_sel, .v_id]
  | .v_msgSend_array => [.v_id, .v_sel, .v_id]

/-- Return type of each helper, from its C signature. -/
def Helper.ret : Helper → CType
  | .v_objc_getClass => .v_id
  | .v_sel_registerName => .v_sel
  | .v_msgSend => .v_id
  | .v_msgSend_0 => .v_id
  | .v_msgSend_str => .v_id
  | .v_msgSend_nsrect => .nsrect
  | .v_msgSend_setFrame => .void
  | .v_msgSend_void_id => .void
  | .v_msgSend_array => .v_id

/-- The alias each helper casts `objc_msgSend` to at its call site; the two
lookup helpers make no such cast. -/
def Helper.alias : Helper → Option FnType
  | .v_objc_getClass => none
  | .v_sel_registerName => none
  | .v_msgSend => some FN_MSG_SEND
  | .v_msgSend_0 => some FN_MSG_SEND
  | .v_msgSend_str => some FN_MSG_SEND_STR
  | .v_msgSend_nsrect => some FN_MSG_SEND_NSRECT
  | .v_msgSend_setFrame => some FN_MSG_SEND_SETFRAME
  | .v_msgSend_void_id => some FN_MSG_SEND_VOID_ID
  | .v_msgSend_array => some FN_MSG_SEND

/-- The call shape of a helper: the argument types it takes and the type it
returns. -/
def Helper.shape (h : Helper) : List CType × CType :=
  (h.params, h.ret)

/-- The parameter types of a helper that its alias leaves to `...`. -/
def Helper.variadicParams (h : Helper) : List CType :=
  match h.alias with
  | some t => h.params.drop t.params.length
  | none => []

/-- The alias of `h` is dedicated to the call shape of `h`: same return type,
and a fixed parameter list that is exactly what `h` passes. -/
def Helper.aliasDedicated (h : Helper) : Prop :=
  ∀ t, h.alias = some t → t.ret = h.ret ∧ t.params = h.params

instance (h : Helper) : Decidable h.aliasDedicated := by
  unfold Helper.aliasDedicated
  cases h.alias with
  | none => exact isTrue (by intro t ht; cases ht)
  | some t0 =>
    exact decidable_of_iff (t0.ret = h.ret ∧ t0.params = h.params)
      ⟨fun hp t ht => by cases ht; exact hp, fun hp => hp t0 rfl⟩

/-! ## A small concrete runtime

One mutable-array object (handle `4096`, its class), a title string and a frame
rectangle; selectors are interned in a table, the handle of the `i`-th name
being `i + 1`.  It serves to evaluate the helpers on concrete inputs. -/

/-- State of the concrete runtime. -/
structure DemoState where
  selectors : List String
  items : List V_ID
  title : String
  frame : NSRect
deriving DecidableEq, Repr

/-- Initial state of the concrete runtime. -/
def demoInit : DemoState :=
  { selectors := ["lastObject", "addObject:", "frame", "setFrame:", "setTitle:"]
    items := []
    title := ""
    frame := ⟨⟨0, 0⟩, ⟨0, 0⟩⟩ }

/-- Class lookup of the concrete runtime: one registered class. -/
def demo_getClass (name : CString) (s : DemoState) : V_ID × DemoState :=
  if name.chars = "NSMutableArray" then (4096, s) else (NULL, s)

/-- Modelled from the spec: the runtime's `sel_registerName`, absent from the
repository, which "interns/returns the unique selector for that name", the
selector being "cached/reused by the runtime itself, not by this shim".  The
runtime keeps the table of the names interned so far; a name already in the
table answers the handle it was given, a new name is appended and given the
next handle.  The handle of the `i`-th name is `i + 1`, never `NULL`. -/
def sel_registerName (name : CString) (table : List String) : V_SEL × List String :=
  if name.chars ∈ table then (table.indexOf name.chars + 1, table)
  else (table.length + 1, table ++ [name.chars])

/-- Selector lookup of the concrete runtime: the spec-modelled
`sel_registerName` on the selector table of the state. -/
def demo_registerName (name : CString) (s : DemoState) : V_SEL × DemoState :=
  ((sel_registerName name s.selectors).1,
    { s with selectors := (sel_registerName name s.selectors).2 })

/-- The method name a selector handle stands for. -/
def demo_selName (s : DemoState) (sel : V_SEL) : Option String :=
  if sel = 0 then none else s.selectors.get? (sel - 1)

/-- The zero value of a C type, returned for an unrecognised message. -/
def CType.zero : (t : CType) → t.denote
  | .v_id => NULL
  | .v_sel => NULL
  | .cstr => ⟨NULL, ""⟩
  | .nsrect => ⟨⟨0, 0⟩, ⟨0, 0⟩⟩
  | .void => ()

/-- Dispatch of the concrete runtime.  A method reads its arguments from the
fixed positions only. -/
def demo_msgSend (ret : CType) (fixed : List Arg) (variadic : List Arg) (s : DemoState) :
    ret.denote × DemoState :=
  match ret with
  | .v_id =>
    match fixed, variadic with
    | [.id _, .sel q], [] =>
      if demo_selName s q = some "lastObject" then (s.items.getLastD NULL, s) else (NULL, s)
    | [.id obj, .sel q, .cstr c], [] =>
      if demo_selName s q = some "setTitle:" then (obj, { s with title := c.chars })
      else (NULL, s)
    | _, _ => (NULL, s)
  | .nsrect =>
    match fixed, variadic with
    | [.id _, .sel q], [] =>
      if demo_selName s q = some "frame" then (s.frame, s) else (CType.zero .nsrect, s)
    | _, _ => (CType.zero .nsrect, s)
  | .void =>
    match fixed, variadic with
    | [.id _, .sel q, .id a], [] =>
      if demo_selName s q = some "addObject:" then ((), { s with items := s.items ++ [a] })
      else ((), s)
    | [.id _, .sel q, .nsrect r], [] =>
      if demo_selName s q = some "setFrame:" then ((), { s with frame := r }) else ((), s)
    | _, _ => ((), s)
  | .v_sel => (CType.zero .v_sel, s)
  | .cstr => (CType.zero .cstr, s)

/-- The concrete runtime. -/
def demoRuntime : Runtime DemoState where
  objc_getClass := demo_getClass
  sel_registerName := demo_registerName
  objc_msgSend := demo_msgSend

/-- The full argument list of a dispatch, in call order; empty for a lookup. -/
def Event.args : Event → List Arg
  | .getClass _ => []
  | .registerName _ => []
  | .msgSend _ fixed variadic => fixed ++ variadic

/-! ## The interface's operation table

The eight operations of the interface description, each with its input and
output shape, to compare with the nine functions of the header. -/

/-- The eight operations the interface describes. -/
inductive Operation where
  | classLookup
  | selectorLookup
  | dispatchZeroArguments
  | dispatchOneObjectArgument
  | dispatchOneStringArgument
  | dispatchRectangleResult
  | dispatchRectangleArgumentVoidResult
  | dispatchObjectArgumentVoidResult
deriving DecidableEq, Repr

/-- All eight operations, in table order. -/
def Operation.all : List Operation :=
  [.classLookup, .selectorLookup, .dispatchZeroArguments, .dispatchOneObjectArgument,
    .dispatchOneStringArgument, .dispatchRectangleResult,
    .dispatchRectangleArgumentVoidResult, .dispatchObjectArgumentVoidResult]

/-- Input and output shape of each operation, as the table gives them. -/
def Operation.shape : Operation → List CType × CType
  | .classLookup => ([.cstr], .v_id)
  | .selectorLookup => ([.cstr], .v_sel)
  | .dispatchZeroArguments => ([.v_id, .v_sel], .v_id)
  | .dispatchOneObjectArgument => ([.v_id, .v_sel, .v_id], .v_id)
  | .dispatchOneStringArgument => ([.v_id, .v_sel, .cstr], .v_id)
  | .dispatchRectangleResult => ([.v_id, .v_sel], .nsrect)
  | .dispatchRectangleArgumentVoidResult => ([.v_id, .v_sel, .nsrect], .void)
  | .dispatchObjectArgumentVoidResult => ([.v_id, .v_sel, .v_id], .void)

/-- The per-call-shape discipline for the dispatching helpers: each one's
alias is dedicated to its call shape, none leaves an argument to `...`, and
helpers of distinct call shapes use distinct aliases. -/
def AliasPerCallShape : Prop :=
  (∀ h ∈ Helper.dispatchers, h.aliasDedicated ∧ h.variadicParams = []) ∧
    ∀ h₁ ∈ Helper.dispatchers, ∀ h₂ ∈ Helper.dispatchers,
      h₁.shape ≠ h₂.shape → h₁.alias ≠ h₂.alias

instance : Decidable AliasPerCallShape := by
  unfold AliasPerCallShape
  infer_instance

/-! ## Sanity of the embedding -/

/-- The static table is the code's: every dispatching helper is the call of
`objc_msgSend` through the alias the table records, applied to arguments of the
types the table records. -/
theorem helper_table_agrees {σ : Type} (rt : Runtime σ) (obj : V_ID) (sel : V_SEL) (a : V_ID)
    (str : CString) (rect : NSRect) (slot : ReturnSlot) (s : σ) :
    (Helper.v_msgSend.alias = some FN_MSG_SEND ∧
      v_msgSend rt obj sel a s = callAs rt FN_MSG_SEND [.id obj, .sel sel, .id a] s ∧
      [Arg.id obj, Arg.sel sel, Arg.id a].map Arg.type = Helper.v_msgSend.params) ∧
    (Helper.v_msgSend_0.alias = some FN_MSG_SEND ∧
      v_msgSend_0 rt obj sel s = callAs rt FN_MSG_SEND [.id obj, .sel sel] s ∧
      [Arg.id obj, Arg.sel sel].map Arg.type = Helper.v_msgSend_0.params) ∧
    (Helper.v_msgSend_str.alias = some FN_MSG_SEND_STR ∧
      v_msgSend_str rt obj sel str s = callAs rt FN_MSG_SEND_STR [.id obj, .sel sel, .cstr str] s ∧
      [Arg.id obj, Arg.sel sel, Arg.cstr str].map Arg.type = Helper.v_msgSend_str.params) ∧
    (Helper.v_msgSend_nsrect.alias = some FN_MSG_SEND_NSRECT ∧
      v_msgSend_nsrect .arm64 rt obj sel slot s =
        callAs rt FN_MSG_SEND_NSRECT [.id obj, .sel sel] s ∧
      [Arg.id obj, Arg.sel sel].map Arg.type = Helper.v_msgSend_nsrect.params) ∧
    (Helper.v_msgSend_setFrame.alias = some FN_MSG_SEND_SETFRAME ∧
      v_msgSend_setFrame rt obj sel rect s =
        callAs rt FN_MSG_SEND_SETFRAME [.id obj, .sel sel, .nsrect rect] s ∧
      [Arg.id obj, Arg.sel sel, Arg.nsrect rect].map Arg.type = Helper.v_msgSend_setFrame.params) ∧
    (Helper.v_msgSend_void_id.alias = some FN_MSG_SEND_VOID_ID ∧
      v_msgSend_void_id rt obj sel a s =
        callAs rt FN_MSG_SEND_VOID_ID [.id obj, .sel sel, .id a] s ∧
      [Arg.id obj, Arg.sel sel, Arg.id a].map Arg.type = Helper.v_msgSend_void_id.params) ∧
    (Helper.v_msgSend_array.alias = some FN_MSG_SEND ∧
      v_msgSend_array rt obj sel a s = callAs rt FN_MSG_SEND [.id obj, .sel sel, .id a] s ∧
      [Arg.id obj, Arg.sel sel, Arg.id a].map Arg.type = Helper.v_msgSend_array.params) :=
  ⟨⟨rfl, rfl, rfl⟩, ⟨rfl, rfl, rfl⟩, ⟨rfl, rfl, rfl⟩, ⟨rfl, rfl, rfl⟩, ⟨rfl, rfl, rfl⟩,
    ⟨rfl, rfl, rfl⟩, ⟨rfl, rfl, rfl⟩⟩

/-- Every call site of the header type-checks as C: the leading arguments have
the alias's fixed parameter types and any further argument goes through a
`...` the alias has. -/
theorem call_sites_well_typed (obj : V_ID) (sel : V_SEL) (a : V_ID) (str : CString)
    (rect : NSRect) :
    WellTypedCall FN_MSG_SEND [.id obj, .sel sel, .id a] ∧
    WellTypedCall FN_MSG_SEND [.id obj, .sel sel] ∧
    WellTypedCall FN_MSG_SEND_STR [.id obj, .sel sel, .cstr str] ∧
    WellTypedCall FN_MSG_SEND_NSRECT [.id obj, .sel sel] ∧
    WellTypedCall FN_MSG_SEND_SETFRAME [.id obj, .sel sel, .nsrect rect] ∧
    WellTypedCall FN_MSG_SEND_VOID_ID [.id obj, .sel sel, .id a] := by
  refine ⟨?_, ?_, ?_, ?_, ?_, ?_⟩ <;>
    simp [WellTypedCall, fixedArgs, variadicArgs, Arg.type]

/-! ## Class and selector lookup -/

/-- C1: class lookup is an unchecked pass-through.  For every runtime, class
name and runtime state, `v_objc_getClass name` returns exactly the handle (and
leaves exactly the state) of the runtime's `objc_getClass name`; its handle is
the null sentinel exactly when the runtime's is; and it makes exactly one call
into the runtime, that lookup.  The result type has no error case. -/
theorem v_objc_getClass_passthrough {σ : Type} (rt : Runtime σ) (name : CString) (s : σ)
    (log : List Event) :
    v_objc_getClass rt name s = rt.objc_getClass name s ∧
    ((v_objc_getClass rt name s).1 = NULL ↔ (rt.objc_getClass name s).1 = NULL) ∧
    v_objc_getClass rt.traced name (s, log) =
      ((rt.objc_getClass name s).1, (rt.objc_getClass name s).2,
        log ++ [Event.getClass name]) :=
  ⟨rfl, Iff.rfl, rfl⟩

/-- Instance of C1 on the concrete runtime: an unregistered class name yields
the null sentinel, a registered one its class handle. -/
theorem v_objc_getClass_passthrough_demo :
    (v_objc_getClass demoRuntime ⟨8, "NoSuchClass"⟩ demoInit).1 = NULL ∧
    (v_objc_getClass demoRuntime ⟨16, "NSMutableArray"⟩ demoInit).1 = 4096 :=
  ⟨((v_objc_getClass_passthrough demoRuntime ⟨8, "NoSuchClass"⟩ demoInit []).2.1).2
      (by decide), by decide⟩

/-- The spec-modelled `sel_registerName` interns: looking a name up again, in
the table the first lookup leaves and through any pointer to the same
characters, answers the first lookup's handle and leaves the table as it is. -/
theorem sel_registerName_interns (name : CString) (p : Nat) (table : List String) :
    sel_registerName ⟨p, name.chars⟩ (sel_registerName name table).2 =
      ((sel_registerName name table).1, (sel_registerName name table).2) := by
  unfold sel_registerName
  by_cases h : name.chars ∈ table
  · simp [h]
  · simp [h, List.indexOf_append_of_not_mem h]

/-- C2: selector lookup is idempotent.  For every runtime, method name and
state, two successive `v_sel_registerName name` calls each return exactly what
the runtime's `sel_registerName name` returns at that point; and on the
runtime whose `sel_registerName` is the interning the interface describes, for
every method name and every state, the two handles are equal, also when the
second call reaches the same characters through another pointer. -/
theorem v_sel_registerName_idempotent {σ : Type} (rt : Runtime σ) (name : CString) (s : σ)
    (p : Nat) (d : DemoState) :
    v_sel_registerName rt name s = rt.sel_registerName name s ∧
    v_sel_registerName rt name (v_sel_registerName rt name s).2 =
      rt.sel_registerName name (rt.sel_registerName name s).2 ∧
    (v_sel_registerName demoRuntime name (v_sel_registerName demoRuntime name d).2).1 =
      (v_sel_registerName demoRuntime name d).1 ∧
    (v_sel_registerName demoRuntime ⟨p, name.chars⟩
        (v_sel_registerName demoRuntime name d).2).1 =
      (v_sel_registerName demoRuntime name d).1 := by
  refine ⟨rfl, rfl, ?_, ?_⟩
  · have h := congrArg Prod.fst (sel_registerName_interns name name.ptr d.selectors)
    exact h
  · have h := congrArg Prod.fst (sel_registerName_interns name p d.selectors)
    exact h

/-- Instance of C2 on the concrete runtime, for a name not yet registered: the
first lookup registers it under handle `6`, the second finds it. -/
theorem v_sel_registerName_idempotent_witness :
    (v_sel_registerName demoRuntime ⟨24, "count"⟩ demoInit).1 = 6 ∧
    (v_sel_registerName demoRuntime ⟨24, "count"⟩
        (v_sel_registerName demoRuntime ⟨24, "count"⟩ demoInit).2).1 =
      (v_sel_registerName demoRuntime ⟨24, "count"⟩ demoInit).1 :=
  ⟨by decide,
    (v_sel_registerName_idempotent demoRuntime ⟨24, "count"⟩ demoInit 24 demoInit).2.2.1⟩

/-! ## Dispatch helpers -/

/-- C3: zero-argument dispatch forwards faithfully.  For every runtime, object
handle, selector and state, `v_msgSend_0 obj sel` makes exactly one call into
the runtime, a dispatch with receiver `obj`, selector `sel` and no further
argument (none through `...` either), read back as an object handle; it
returns that call's result and state unchanged, which is what the native
zero-argument call of the same method returns. -/
theorem v_msgSend_0_forwards {σ : Type} (rt : Runtime σ) (obj : V_ID) (sel : V_SEL) (s : σ)
    (log : List Event) :
    v_msgSend_0 rt.traced obj sel (s, log) =
      ((rt.objc_msgSend .v_id [.id obj, .sel sel] [] s).1,
        (rt.objc_msgSend .v_id [.id obj, .sel sel] [] s).2,
        log ++ [Event.msgSend .v_id [.id obj, .sel sel] []]) ∧
    v_msgSend_0 rt obj sel s = rt.objc_msgSend .v_id [.id obj, .sel sel] [] s ∧
    v_msgSend_0 rt obj sel s = native_msgSend_0 rt obj sel s :=
  ⟨rfl, rfl, rfl⟩

/-- C4, evaluated on the code.  Compiled for arm64, `v_msgSend_nsrect obj sel`
returns, for every runtime, exactly the rectangle and state of the runtime
dispatch of `(obj, sel)`.  Compiled for x86-64 it returns, for every runtime,
the prior contents of the caller's return slot, and the runtime receives the
slot address as receiver and `obj` as selector.  On the concrete runtime,
with the frame set to `(1, 2, 3, 4)` and a slot holding `(11, 22, 33, 44)`, the
runtime dispatch of `frame` answers `(1, 2, 3, 4)`, the arm64 helper returns
`(1, 2, 3, 4)` and the x86-64 helper returns `(11, 22, 33, 44)`. -/
theorem v_msgSend_nsrect_x86_64_returns_slot :
    (∀ (σ : Type) (rt : Runtime σ) (obj : V_ID) (sel : V_SEL) (slot : ReturnSlot) (s : σ),
      v_msgSend_nsrect .arm64 rt obj sel slot s =
        rt.objc_msgSend .nsrect [.id obj, .sel sel] [] s) ∧
    (∀ (σ : Type) (rt : Runtime σ) (obj : V_ID) (sel : V_SEL) (slot : ReturnSlot) (s : σ)
        (log : List Event),
      (v_msgSend_nsrect .x86_64 rt obj sel slot s).1 = slot.contents ∧
      (v_msgSend_nsrect .x86_64 rt.traced obj sel slot (s, log)).2.2 =
        log ++ [Event.msgSend .void [.id slot.addr, .sel obj, .sel sel] []]) ∧
    (demoRuntime.objc_msgSend .nsrect [.id 4096, .sel 3] []
        (v_msgSend_setFrame demoRuntime 4096 4 ⟨⟨1, 2⟩, ⟨3, 4⟩⟩ demoInit).2).1 =
      ⟨⟨1, 2⟩, ⟨3, 4⟩⟩ ∧
    (v_msgSend_nsrect .arm64 demoRuntime 4096 3 ⟨8192, ⟨⟨11, 22⟩, ⟨33, 44⟩⟩⟩
        (v_msgSend_setFrame demoRuntime 4096 4 ⟨⟨1, 2⟩, ⟨3, 4⟩⟩ demoInit).2).1 =
      ⟨⟨1, 2⟩, ⟨3, 4⟩⟩ ∧
    (v_msgSend_nsrect .x86_64 demoRuntime 4096 3 ⟨8192, ⟨⟨11, 22⟩, ⟨33, 44⟩⟩⟩
        (v_msgSend_setFrame demoRuntime 4096 4 ⟨⟨1, 2⟩, ⟨3, 4⟩⟩ demoInit).2).1 =
      ⟨⟨11, 22⟩, ⟨33, 44⟩⟩ :=
  ⟨fun _ _ _ _ _ _ => rfl, fun _ _ _ _ _ _ _ => ⟨rfl, rfl⟩, by decide, by decide, by decide⟩

/-- C5: string-argument dispatch preserves the string.  For every runtime,
object handle, selector, C string and state, `v_msgSend_str obj sel str` makes
exactly one call into the runtime, a dispatch with receiver `obj`, selector
`sel` and the single argument `str` (same pointer, same characters) in a fixed
parameter position, and returns that call's object result and state
unchanged.  So whenever the target method echoes or stores its argument, that
is, a native accessor `readBack` applied to the outcome of the runtime dispatch
reports the characters of `str`, the same accessor applied to the helper's
outcome reports the characters of `str`. -/
theorem v_msgSend_str_preserves {σ : Type} (rt : Runtime σ) (obj : V_ID) (sel : V_SEL)
    (str : CString) (s : σ) (log : List Event) (readBack : V_ID × σ → String)
    (hecho : readBack (rt.objc_msgSend .v_id [.id obj, .sel sel, .cstr str] [] s) = str.chars) :
    v_msgSend_str rt.traced obj sel str (s, log) =
      ((rt.objc_msgSend .v_id [.id obj, .sel sel, .cstr str] [] s).1,
        (rt.objc_msgSend .v_id [.id obj, .sel sel, .cstr str] [] s).2,
        log ++ [Event.msgSend .v_id [.id obj, .sel sel, .cstr str] []]) ∧
    v_msgSend_str rt obj sel str s =
      rt.objc_msgSend .v_id [.id obj, .sel sel, .cstr str] [] s ∧
    readBack (v_msgSend_str rt obj sel str s) = str.chars :=
  ⟨rfl, rfl, hecho⟩

/-- Witness of C5 on the concrete runtime: `setTitle:` stores its argument, and
after `v_msgSend_str` the stored title is the string passed. -/
theorem v_msgSend_str_preserves_witness :
    (demoRuntime.objc_msgSend .v_id [.id 4096, .sel 5, .cstr ⟨32, "glyph"⟩] [] demoInit).2.title =
      "glyph" ∧
    (v_msgSend_str demoRuntime 4096 5 ⟨32, "glyph"⟩ demoInit).2.title = "glyph" :=
  ⟨by decide,
    (v_msgSend_str_preserves demoRuntime 4096 5 ⟨32, "glyph"⟩ demoInit []
      (fun r => r.2.title) (by decide)).2.2⟩

/-- C6: object-argument void dispatch has exactly the runtime's effect.  For
every runtime, `obj`, `sel`, `arg` and state, `v_msgSend_void_id obj sel arg`
returns nothing and leaves the runtime in exactly the state one dispatch of
`(obj, sel, arg)` produces, making exactly that one call; consequently, for
every query selector `q`, a following `v_msgSend_0 obj q` returns what the
runtime answers for `(obj, q)` in that post-state. -/
theorem v_msgSend_void_id_effect {σ : Type} (rt : Runtime σ) (obj : V_ID) (sel : V_SEL)
    (arg : V_ID) (s : σ) (log : List Event) :
    v_msgSend_void_id rt obj sel arg s =
      ((), (rt.objc_msgSend .void [.id obj, .sel sel, .id arg] [] s).2) ∧
    v_msgSend_void_id rt.traced obj sel arg (s, log) =
      ((), (rt.objc_msgSend .void [.id obj, .sel sel, .id arg] [] s).2,
        log ++ [Event.msgSend .void [.id obj, .sel sel, .id arg] []]) ∧
    ∀ q : V_SEL,
      v_msgSend_0 rt obj q (v_msgSend_void_id rt obj sel arg s).2 =
        rt.objc_msgSend .v_id [.id obj, .sel q] []
          (rt.objc_msgSend .void [.id obj, .sel sel, .id arg] [] s).2 :=
  ⟨rfl, rfl, fun _ => rfl⟩

/-- Instance of C6 on the concrete runtime: after `addObject:` of item `77`
through `v_msgSend_void_id`, the query `lastObject` through `v_msgSend_0`
answers `77`, where before it answered the null handle. -/
theorem v_msgSend_void_id_effect_demo :
    (v_msgSend_0 demoRuntime 4096 1 demoInit).1 = NULL ∧
    (v_msgSend_0 demoRuntime 4096 1 (v_msgSend_void_id demoRuntime 4096 2 77 demoInit).2).1 =
      77 := by
  refine ⟨by decide, ?_⟩
  rw [(v_msgSend_void_id_effect demoRuntime 4096 2 77 demoInit []).2.2 1]
  decide

/-- C7: rectangle-argument void dispatch forwards the rectangle intact.  For
every runtime, `obj`, `sel`, rectangle and state, `v_msgSend_setFrame obj sel
rect` makes exactly one call into the runtime, a dispatch with receiver `obj`,
selector `sel` and a single rectangle argument whose origin x, origin y, size
width and size height are those of `rect`, and returns nothing, leaving the
state that dispatch produces. -/
theorem v_msgSend_setFrame_forwards {σ : Type} (rt : Runtime σ) (obj : V_ID) (sel : V_SEL)
    (rect : NSRect) (s : σ) (log : List Event) :
    v_msgSend_setFrame rt.traced obj sel rect (s, log) =
      ((), (rt.objc_msgSend .void [.id obj, .sel sel, .nsrect rect] [] s).2,
        log ++ [Event.msgSend .void
          [.id obj, .sel sel,
            .nsrect ⟨⟨rect.origin.x, rect.origin.y⟩, ⟨rect.size.width, rect.size.height⟩⟩]
          []]) ∧
    v_msgSend_setFrame rt obj sel rect s =
      ((), (rt.objc_msgSend .void [.id obj, .sel sel, .nsrect rect] [] s).2) :=
  ⟨rfl, rfl⟩

/-- C9, evaluated on the code: `v_msgSend 4096 2 77` reaches the runtime with
only `obj` and `sel` in fixed parameter positions and `77` passed through the
`...` of `FN_MSG_SEND`, whereas the sibling `v_msgSend_void_id 4096 2 77`
passes all three in fixed positions.  In the table, the dispatching helpers
whose alias is not dedicated to their call shape are exactly `v_msgSend` and
`v_msgSend_array`; both leave their object argument to `...`; `v_msgSend` and
`v_msgSend_0` have different call shapes and the same alias; every alias does
return the helper's return type; so the per-call-shape discipline fails. -/
theorem v_msgSend_argument_through_variadic :
    (v_msgSend demoRuntime.traced 4096 2 77 (demoInit, [])).2.2 =
      [Event.msgSend .v_id [.id 4096, .sel 2] [.id 77]] ∧
    (v_msgSend_void_id demoRuntime.traced 4096 2 77 (demoInit, [])).2.2 =
      [Event.msgSend .void [.id 4096, .sel 2, .id 77] []] ∧
    Helper.dispatchers.filter (fun h => decide (¬ h.aliasDedicated)) =
      [.v_msgSend, .v_msgSend_array] ∧
    Helper.dispatchers.filter (fun h => decide (h.variadicParams ≠ [])) =
      [.v_msgSend, .v_msgSend_array] ∧
    Helper.v_msgSend.variadicParams = [.v_id] ∧
    Helper.v_msgSend_array.variadicParams = [.v_id] ∧
    Helper.v_msgSend.shape ≠ Helper.v_msgSend_0.shape ∧
    Helper.v_msgSend.alias = Helper.v_msgSend_0.alias ∧
    Helper.dispatchers.all (fun h => decide (h.alias.map FnType.ret = some h.ret)) = true ∧
    ¬ AliasPerCallShape := by
  decide

/-- C10: `v_msgSend_array` is extensionally `v_msgSend`.  For every runtime,
`obj`, `sel`, argument handle and state the two return the same result and
post-state and make the same single dispatch (same alias, same arguments in
the same order).  The header's nine functions have eight distinct call shapes,
which are exactly the eight operations of the interface table, and the only
two functions sharing a call shape are `v_msgSend` and `v_msgSend_array`. -/
theorem v_msgSend_array_eq_v_msgSend {σ : Type} (rt : Runtime σ) (obj : V_ID) (sel : V_SEL)
    (a : V_ID) (s : σ) (log : List Event) :
    v_msgSend_array rt obj sel a s = v_msgSend rt obj sel a s ∧
    v_msgSend_array rt.traced obj sel a (s, log) = v_msgSend rt.traced obj sel a (s, log) ∧
    (v_msgSend_array rt.traced obj sel a (s, log)).2.2 =
      log ++ [Event.msgSend .v_id [.id obj, .sel sel] [.id a]] ∧
    Helper.v_msgSend_array.alias = Helper.v_msgSend.alias ∧
    (Helper.all.length = 9 ∧ Helper.all.Nodup) ∧
    (Operation.all.length = 8 ∧ (Operation.all.map Operation.shape).Nodup) ∧
    ((Helper.all.map Helper.shape).dedup.length = 8 ∧
      ((Helper.all.map Helper.shape).dedup).Perm (Operation.all.map Operation.shape)) ∧
    ∀ h₁ ∈ Helper.all, ∀ h₂ ∈ Helper.all, h₁.shape = h₂.shape →
      h₁ = h₂ ∨ (h₁ = .v_msgSend ∧ h₂ = .v_msgSend_array) ∨
        (h₁ = .v_msgSend_array ∧ h₂ = .v_msgSend) := by
  refine ⟨rfl, rfl, rfl, rfl, by decide, by decide, by decide, by decide⟩

end ObjcHelpers
